import Mathlib

/-!
Shallow embedding of `src/server/player/src/packet_handlers/digging.rs`
(feather server, player-digging packet handlers).

Rust `f64` quantities (hardness, dig progress, positions) are embedded as
rationals `ℚ`; all arithmetic in the source on these values is a handful of
additions, multiplications and comparisons on small literals, which are exact
in `ℚ`. Per-actor ECS components become fields of a `PlayerState` record;
world/Game state becomes a `GameState` record; every handler is a pure state
transformer returning an `Outcome` (new player state, new game state, emitted
events, disconnect flag).
-/

namespace Digg

/-- A discrete block coordinate (`feather_core::util::BlockPosition`). -/
structure BlockPos where
  x : Int
  y : Int
  z : Int
deriving DecidableEq, Repr

/-- A continuous world position (`feather_core::util::Position`), `f64`
coordinates embedded as `ℚ`. -/
structure Pos where
  x : ℚ
  y : ℚ
  z : ℚ
deriving DecidableEq, Repr

/-- Modelled from the spec: `BlockPosition::position()` (feather_core, outside
`src/`) converts the targeted block coordinate to a world position used by the
distance gate ("Euclidean distance² ... from the actor's position to the
targeted block"). -/
def BlockPos.position (b : BlockPos) : Pos :=
  ⟨(b.x : ℚ), (b.y : ℚ), (b.z : ℚ)⟩

/-- Modelled from the spec: squared Euclidean distance between two positions
(`Position::distance_squared_to`, feather_core, outside `src/`). -/
def Pos.distance_squared_to (a b : Pos) : ℚ :=
  (a.x - b.x) * (a.x - b.x) + (a.y - b.y) * (a.y - b.y) + (a.z - b.z) * (a.z - b.z)

/-- A tool category (`feather_core::items` tool kinds, outside `src/`;
only the category identity matters to this module). -/
inductive ToolKind
  | Pickaxe
  | Shovel
  | Axe
  | Sword
  | Hoe
deriving DecidableEq, Repr

/-- A tool material carrying its dig-speed multiplier
(`ToolMaterial::dig_multiplier`, outside `src/`; the handlers only read the
multiplier, so the material is embedded as that value). -/
structure ToolMaterial where
  dig_multiplier : ℚ
deriving DecidableEq, Repr

/-- Item kinds (`feather_core::items::Item`, outside `src/`): the handlers
distinguish the three arrow-family items, the bow, tool items (carrying a tool
category and an optional material), and everything else. -/
inductive Item
  | Arrow
  | SpectralArrow
  | TippedArrow
  | Bow
  | ToolItem (kind : ToolKind) (mat : Option ToolMaterial)
  | Other (id : Nat)
deriving DecidableEq, Repr

/-- `Item::tool()`: the tool category an item claims, if any. -/
def Item.tool : Item → Option ToolKind
  | .ToolItem k _ => some k
  | _ => none

/-- `Item::tool_material()`: the material of a tool item, if any. -/
def Item.tool_material : Item → Option ToolMaterial
  | .ToolItem _ m => m
  | _ => none

/-- An item stack (`feather_core::items::ItemStack`). -/
structure ItemStack where
  ty : Item
  amount : Nat
deriving DecidableEq, Repr

/-- Inventory areas used by this module (`feather_core::inventory::Area`). -/
inductive Area
  | Hotbar
  | Offhand
  | Main
deriving DecidableEq, Repr

/-- `feather_core::inventory::SlotIndex`. -/
structure SlotIndex where
  area : Area
  slot : Nat
deriving DecidableEq, Repr

/-- `feather_core::inventory::slot(area, index)`. -/
def slot (area : Area) (s : Nat) : SlotIndex := ⟨area, s⟩

/-- The player inventory, one optional stack per slot in each area the
handlers touch (the generic container is an external collaborator; slots are
total maps from index, since every access in the source is in-bounds and
`.unwrap()`ed). -/
structure Inventory where
  hotbar : Nat → Option ItemStack
  offhand : Option ItemStack
  main : Nat → Option ItemStack

/-- `Inventory::item_at(area, index)`. -/
def Inventory.item_at (inv : Inventory) : Area → Nat → Option ItemStack
  | .Hotbar, i => inv.hotbar i
  | .Offhand, _ => inv.offhand
  | .Main, i => inv.main i

/-- `Inventory::set_item_at(area, index, stack)`. -/
def Inventory.set_item_at (inv : Inventory) : Area → Nat → ItemStack → Inventory
  | .Hotbar, i, s => { inv with hotbar := fun j => if j = i then some s else inv.hotbar j }
  | .Offhand, _, s => { inv with offhand := some s }
  | .Main, i, s => { inv with main := fun j => if j = i then some s else inv.main j }

/-- `Inventory::remove_item_at(area, index)`. -/
def Inventory.remove_item_at (inv : Inventory) : Area → Nat → Inventory
  | .Hotbar, i => { inv with hotbar := fun j => if j = i then none else inv.hotbar j }
  | .Offhand, _ => { inv with offhand := none }
  | .Main, i => { inv with main := fun j => if j = i then none else inv.main j }

/-- `fn is_arrow_item(item: Item) -> bool`. -/
def is_arrow_item : Item → Bool
  | .Arrow | .SpectralArrow | .TippedArrow => true
  | _ => false

/-- One step of the `for` loops in `find_arrow`: scan the given indices of an
area in order, returning the first arrow-family stack found. -/
def find_arrow_loop (inv : Inventory) (area : Area) : List Nat → Option (SlotIndex × ItemStack)
  | [] => none
  | i :: rest =>
    match inv.item_at area i with
    | some stack =>
      if is_arrow_item stack.ty then some (slot area i, stack)
      else find_arrow_loop inv area rest
    | none => find_arrow_loop inv area rest

/-- `fn find_arrow(inventory: &Inventory)`. Faithful to the source: the first
check reads `item_at(Area::Hotbar, 0)` (while labelling the result
`slot(Area::Offhand, 0)`), then the hotbar slots `0..9`, then main slots
`0..=27`. -/
def find_arrow (inv : Inventory) : Option (SlotIndex × ItemStack) :=
  match inv.item_at Area.Hotbar 0 with
  | some offhand =>
    if is_arrow_item offhand.ty then some (slot Area.Offhand 0, offhand)
    else find_arrow_rest inv
  | none => find_arrow_rest inv
where
  /-- The two `for` loops of `find_arrow` after the first check. -/
  find_arrow_rest (inv : Inventory) : Option (SlotIndex × ItemStack) :=
    match find_arrow_loop inv Area.Hotbar (List.range 9) with
    | some r => some r
    | none => find_arrow_loop inv Area.Main (List.range 28)

/-- A block kind, embedded by the three attributes the handlers read
(`BlockKind::hardness / best_tool / best_tool_required`, outside `src/`). -/
structure BlockKind where
  hardness : ℚ
  best_tool : Option ToolKind
  best_tool_required : Bool
deriving DecidableEq, Repr

/-- `BlockId::air()` / the default block: air, hardness 0, no best tool. -/
def BlockKind.air : BlockKind := ⟨0, none, false⟩

/-- `PlayerDiggingStatus` (network enum; `OtherStatus` stands for the
protocol's remaining, unhandled codes). -/
inductive PlayerDiggingStatus
  | StartedDigging
  | CancelledDigging
  | FinishedDigging
  | DropItem
  | DropItemStack
  | ConsumeItem
  | OtherStatus (code : Nat)
deriving DecidableEq, Repr

/-- The `PlayerDigging` packet (the `face` field is unused by this module). -/
structure PlayerDigging where
  status : PlayerDiggingStatus
  location : BlockPos
deriving DecidableEq, Repr

/-- `struct Digging`: the per-actor digging component. -/
structure Digging where
  pos : BlockPos
  time : ℚ
  progress : ℚ
deriving DecidableEq, Repr

/-- The events published by the handlers (`StartDiggingEvent`,
`FinishDiggingEvent`, `InventoryUpdateEvent`, `ItemDropEvent`,
`EntitySpawnEvent`); the single modelled actor's identity is implicit. -/
inductive Event
  | StartDiggingEvent
  | FinishDiggingEvent (digging : Digging)
  | InventoryUpdateEvent (slots : List SlotIndex)
  | ItemDropEvent (slot : Option SlotIndex) (stack : ItemStack)
  | EntitySpawnEvent
deriving DecidableEq, Repr

/-- The ECS components of the one modelled player: position, capability flags
(`CanBreak`, `CanInstaBreak` — presence of the marker component is a `Bool`),
optional `Digging` and `ItemTimedUse` components, inventory and `HeldItem`
hotbar index. `timedUse` is the `tick_start` of the `ItemTimedUse` record. -/
structure PlayerState where
  position : Pos
  canBreak : Bool
  canInstaBreak : Bool
  digging : Option Digging
  inventory : Inventory
  heldItem : Nat
  timedUse : Option Nat

/-- The world/Game state the handlers read and mutate: the block at each
coordinate (`none` = chunk not loaded, `Game::block_at` returns `None`) and
the global tick counter. -/
structure GameState where
  blocks : BlockPos → Option BlockKind
  tickCount : Nat

/-- `Game::block_at`. -/
def GameState.block_at (g : GameState) (pos : BlockPos) : Option BlockKind :=
  g.blocks pos

/-- Result of running one handler: updated player, updated world, events
published via `game.handle`, and whether `game.disconnect` was invoked. -/
structure Outcome where
  player : PlayerState
  game : GameState
  events : List Event
  disconnected : Bool

/-- `fn dig(game, world, player, pos)`: ask the world to set the block to air;
on failure (chunk not loaded) disconnect the player. -/
def dig (g : GameState) (p : PlayerState) (pos : BlockPos) : Outcome :=
  match g.blocks pos with
  | some _ =>
    ⟨p, { g with blocks := fun q => if q = pos then some BlockKind.air else g.blocks q }, [], false⟩
  | none => ⟨p, g, [], true⟩

/-- `const MAX_DIG_RADIUS_SQUARED: f64 = 36.0`. -/
def MAX_DIG_RADIUS_SQUARED : ℚ := 36

/-- `fn handle_started_digging`. -/
def handle_started_digging (g : GameState) (p : PlayerState) (packet : PlayerDigging) : Outcome :=
  let p := { p with digging := none }
  if packet.location.position.distance_squared_to p.position > MAX_DIG_RADIUS_SQUARED then
    ⟨p, g, [], false⟩
  else if p.canInstaBreak ∨ ((g.block_at packet.location).getD BlockKind.air).hardness < 1/100 then
    dig g p packet.location
  else
    let block := (g.block_at packet.location).getD BlockKind.air
    let hardness := block.hardness
    let p := { p with digging := some ⟨packet.location, hardness, 0⟩ }
    ⟨p, g, [Event.StartDiggingEvent], false⟩

/-- `fn handle_cancelled_digging`. -/
def handle_cancelled_digging (g : GameState) (p : PlayerState) : Outcome :=
  let digging := p.digging
  let p := { p with digging := none }
  match digging with
  | some d => ⟨p, g, [Event.FinishDiggingEvent d], false⟩
  | none => ⟨p, g, [], false⟩

/-- `fn handle_finished_digging`. The record (or the synthetic insta-break
record) is obtained first, then the component is removed, then the target
match is checked, then the block is broken and the event published. -/
def handle_finished_digging (g : GameState) (p : PlayerState) (packet : PlayerDigging) : Outcome :=
  let digging? : Option Digging :=
    match p.digging with
    | some digging => some digging
    | none =>
      if p.canInstaBreak then some ⟨packet.location, 0, 0⟩
      else none
  match digging? with
  | none => ⟨p, g, [], false⟩
  | some digging =>
    let p := { p with digging := none }
    if digging.pos ≠ packet.location then ⟨p, g, [], false⟩
    else
      let o := dig g p digging.pos
      { o with events := o.events ++ [Event.FinishDiggingEvent digging] }

/-- `fn handle_digging`: the break-capability gate and the status dispatch
(the wildcard arm is `unreachable!` given the caller's match). -/
def handle_digging (g : GameState) (p : PlayerState) (packet : PlayerDigging) : Outcome :=
  if ¬ p.canBreak then ⟨p, g, [], false⟩
  else
    match packet.status with
    | .StartedDigging => handle_started_digging g p packet
    | .CancelledDigging => handle_cancelled_digging g p
    | .FinishedDigging => handle_finished_digging g p packet
    | _ => ⟨p, g, [], false⟩

/-- The per-actor body of `advance_dig_progress` (the `par_for_each_mut`
closure), parametrised by the tick rate `tps` (`TPS`, a system-wide constant
from `feather_server_types`, outside `src/`). Returns `none` exactly where the
source `panic!`s (a tool item claims a category but has no material). -/
def advance_dig_progress (tps : ℚ) (g : GameState) (inventory : Inventory) (held_item : Nat)
    (digging : Digging) : Option Digging :=
  let block := (g.block_at digging.pos).getD BlockKind.air
  let best_tool := block.best_tool
  let best_tool_required := block.best_tool_required
  let item_in_main_hand : Option ItemStack := inventory.item_at Area.Hotbar held_item
  let held_tool : Option ToolKind := (item_in_main_hand.map (fun item => item.ty.tool)).join
  let multiplier? : Option ℚ :=
    if best_tool = held_tool ∧ best_tool.isSome then
      match item_in_main_hand with
      | some item =>
        match item.ty.tool_material with
        | some mat => some ((1 / (3/2 : ℚ)) * mat.dig_multiplier)
        | none => none
      | none => none
    else if best_tool_required then some (1/5)
    else some (1 / (3/2 : ℚ))
  multiplier?.map fun multiplier =>
    { digging with progress := digging.progress + (1 / tps) * multiplier }

/-- `fn handle_drop_item_stack` (statuses `DropItem` and `DropItemStack`
only; the assertion and the `unreachable!` arm make any other status
impossible at this call site, embedded as a no-op). -/
def handle_drop_item_stack (g : GameState) (p : PlayerState) (packet : PlayerDigging) : Outcome :=
  let held_item := p.heldItem
  let inventory := p.inventory
  match inventory.item_at Area.Hotbar held_item with
  | none => ⟨p, g, [], false⟩
  | some stack =>
    let step : Inventory × Nat :=
      match packet.status with
      | .DropItem =>
        if stack.amount = 0 then (inventory.remove_item_at Area.Hotbar held_item, 0)
        else if stack.amount = 1 then (inventory.remove_item_at Area.Hotbar held_item, 1)
        else
          (inventory.set_item_at Area.Hotbar held_item ⟨stack.ty, stack.amount - 1⟩, 1)
      | .DropItemStack => (inventory.remove_item_at Area.Hotbar held_item, stack.amount)
      | _ => (inventory, 0)
    let inventory := step.1
    let amnt := step.2
    let idx : SlotIndex := ⟨Area.Hotbar, held_item⟩
    let events := [Event.InventoryUpdateEvent [idx]]
    let events :=
      if amnt ≠ 0 then events ++ [Event.ItemDropEvent (some idx) ⟨stack.ty, amnt⟩]
      else events
    ⟨{ p with inventory := inventory }, g, events, false⟩

/-- `fn handle_shoot_bow`. The projectile kinematics
(`charge_from_ticks_held`, `compute_projectile_velocity`, eye-height origin)
are external collaborators whose outputs only parametrise the spawned arrow
entity; the embedding keeps the control flow (arrow selection, the
`ItemTimedUse` gate, the 20-tick clamp of `time_held`, the component removal,
the spawn event) and drops the numeric velocity payload. -/
def handle_shoot_bow (g : GameState) (p : PlayerState) : Outcome :=
  let arrow_to_consume : Option (SlotIndex × ItemStack) := find_arrow p.inventory
  let _arrow_type : Item :=
    match arrow_to_consume with
    | none => Item.Arrow
    | some (_, arrow_stack) => arrow_stack.ty
  match p.timedUse with
  | none => ⟨p, g, [], false⟩
  | some tick_start =>
    let time_held := g.tickCount - tick_start
    let time_held := if time_held > 20 then 20 else time_held
    let _ := time_held
    let p := { p with timedUse := none }
    ⟨p, g, [Event.EntitySpawnEvent], false⟩

/-- `fn handle_consume_item`: only a held bow is handled
(`item_in_main_hand`, from `entity::InventoryExt` outside `src/`, reads the
held hotbar slot); food and potions are unimplemented. -/
def handle_consume_item (g : GameState) (p : PlayerState) (_packet : PlayerDigging) : Outcome :=
  let used_item := p.inventory.item_at Area.Hotbar p.heldItem
  match used_item with
  | some item =>
    if item.ty = Item.Bow then handle_shoot_bow g p
    else ⟨p, g, [], false⟩
  | none => ⟨p, g, [], false⟩

/-- The per-packet dispatch of `handle_player_digging` (the
`for_each_valid` closure): route one inbound packet by status. -/
def handle_player_digging (g : GameState) (p : PlayerState) (packet : PlayerDigging) : Outcome :=
  match packet.status with
  | .StartedDigging | .FinishedDigging | .CancelledDigging => handle_digging g p packet
  | .DropItem | .DropItemStack => handle_drop_item_stack g p packet
  | .ConsumeItem => handle_consume_item g p packet
  | .OtherStatus _ => ⟨p, g, [], false⟩

/-! Concrete fixtures used by witness and counterexample theorems. -/

/-- An empty inventory. -/
def invEmpty : Inventory := ⟨fun _ => none, none, fun _ => none⟩

/-- A stone-like block: hardness 1.5, best tool pickaxe, best tool required. -/
def stoneK : BlockKind := ⟨3/2, some ToolKind.Pickaxe, true⟩

/-- A dirt-like block: hardness 1/2, best tool shovel, best tool not required. -/
def dirtK : BlockKind := ⟨1/2, some ToolKind.Shovel, false⟩

/-- A world made entirely of loaded stone-like blocks, at tick 100. -/
def g0 : GameState := ⟨fun _ => some stoneK, 100⟩

/-- A break-capable player at the origin with an empty inventory. -/
def p0 : PlayerState := ⟨⟨0, 0, 0⟩, true, false, none, invEmpty, 0, none⟩

/-- A block coordinate near the origin (distance² = 14 ≤ 36). -/
def pos1 : BlockPos := ⟨1, 2, 3⟩

/-- A second, distinct block coordinate. -/
def pos2 : BlockPos := ⟨4, 5, 6⟩

/-- A digging record targeting `pos1` with the stone hardness. -/
def d1 : Digging := ⟨pos1, 3/2, 0⟩

/-! Helper lemmas about `dig` and the dispatch layers. -/

/-- `dig` never touches the player's components. -/
theorem dig_player (g : GameState) (p : PlayerState) (pos : BlockPos) :
    (dig g p pos).player = p := by
  cases hgb : g.blocks pos <;> simp [dig, hgb]

/-- `dig` publishes no events. -/
theorem dig_events (g : GameState) (p : PlayerState) (pos : BlockPos) :
    (dig g p pos).events = [] := by
  cases hgb : g.blocks pos <;> simp [dig, hgb]

/-- On a loaded block, `dig` replaces it with air and does not disconnect. -/
theorem dig_breaks (g : GameState) (p : PlayerState) (pos : BlockPos)
    (h : (g.blocks pos).isSome = true) :
    (dig g p pos).game.blocks pos = some BlockKind.air ∧ (dig g p pos).disconnected = false := by
  cases hgb : g.blocks pos with
  | some b => simp [dig, hgb]
  | none => rw [hgb] at h; simp at h

/-- For a break-capable player, a `StartedDigging` packet reaches
`handle_started_digging`. -/
theorem handle_digging_start (g : GameState) (p : PlayerState) (packet : PlayerDigging)
    (hcb : p.canBreak = true) (hst : packet.status = PlayerDiggingStatus.StartedDigging) :
    handle_digging g p packet = handle_started_digging g p packet := by
  unfold handle_digging
  rw [hst]
  simp [hcb]

/-- For a break-capable player, a `CancelledDigging` packet reaches
`handle_cancelled_digging`. -/
theorem handle_digging_cancel (g : GameState) (p : PlayerState) (packet : PlayerDigging)
    (hcb : p.canBreak = true) (hst : packet.status = PlayerDiggingStatus.CancelledDigging) :
    handle_digging g p packet = handle_cancelled_digging g p := by
  unfold handle_digging
  rw [hst]
  simp [hcb]

/-- For a break-capable player, a `FinishedDigging` packet reaches
`handle_finished_digging`. -/
theorem handle_digging_finish (g : GameState) (p : PlayerState) (packet : PlayerDigging)
    (hcb : p.canBreak = true) (hst : packet.status = PlayerDiggingStatus.FinishedDigging) :
    handle_digging g p packet = handle_finished_digging g p packet := by
  unfold handle_digging
  rw [hst]
  simp [hcb]

/-- A start packet whose target is out of dig range is ignored, but the old
`Digging` record has already been removed. -/
theorem handle_started_digging_far (g : GameState) (p : PlayerState) (packet : PlayerDigging)
    (h : packet.location.position.distance_squared_to p.position > MAX_DIG_RADIUS_SQUARED) :
    handle_started_digging g p packet = ⟨{ p with digging := none }, g, [], false⟩ := by
  unfold handle_started_digging
  rw [if_pos h]

/-- A start packet in range, with insta-break or a near-zero-hardness block,
goes straight to `dig` with the `Digging` record removed. -/
theorem handle_started_digging_insta (g : GameState) (p : PlayerState) (packet : PlayerDigging)
    (h : ¬ packet.location.position.distance_squared_to p.position > MAX_DIG_RADIUS_SQUARED)
    (hi : p.canInstaBreak = true ∨
      ((g.block_at packet.location).getD BlockKind.air).hardness < 1/100) :
    handle_started_digging g p packet = dig g { p with digging := none } packet.location := by
  unfold handle_started_digging
  rw [if_neg h, if_pos (by simpa using hi)]

/-- A start packet in range on a hard block without insta-break creates a
fresh `Digging` record and fires `StartDiggingEvent`. -/
theorem handle_started_digging_normal (g : GameState) (p : PlayerState) (packet : PlayerDigging)
    (h : ¬ packet.location.position.distance_squared_to p.position > MAX_DIG_RADIUS_SQUARED)
    (hi : ¬ (p.canInstaBreak = true ∨
      ((g.block_at packet.location).getD BlockKind.air).hardness < 1/100)) :
    handle_started_digging g p packet =
      ⟨{ p with digging :=
            some (Digging.mk packet.location
              ((g.block_at packet.location).getD BlockKind.air).hardness 0) },
        g, [Event.StartDiggingEvent], false⟩ := by
  unfold handle_started_digging
  rw [if_neg h, if_neg (by simpa using hi)]

/-- A finish packet matching the current record: the record is removed, the
block is dug at the record's target, and the event carries the old record. -/
theorem handle_finished_digging_match (g : GameState) (p : PlayerState) (packet : PlayerDigging)
    (d : Digging) (hd : p.digging = some d) (hpos : d.pos = packet.location) :
    handle_finished_digging g p packet =
      { dig g { p with digging := none } d.pos with
        events := (dig g { p with digging := none } d.pos).events ++
          [Event.FinishDiggingEvent d] } := by
  unfold handle_finished_digging
  rw [hd]
  simp [hpos]

/-- A finish packet not matching the current record: the record is removed
anyway and nothing else happens. -/
theorem handle_finished_digging_mismatch (g : GameState) (p : PlayerState)
    (packet : PlayerDigging) (d : Digging) (hd : p.digging = some d)
    (hpos : d.pos ≠ packet.location) :
    handle_finished_digging g p packet = ⟨{ p with digging := none }, g, [], false⟩ := by
  unfold handle_finished_digging
  rw [hd]
  simp [hpos]

/-- A finish packet with no record from an insta-breaking player: a synthetic
record at the packet's location with zero time and progress is used. -/
theorem handle_finished_digging_insta (g : GameState) (p : PlayerState)
    (packet : PlayerDigging) (hd : p.digging = none) (hi : p.canInstaBreak = true) :
    handle_finished_digging g p packet =
      { dig g { p with digging := none } packet.location with
        events := (dig g { p with digging := none } packet.location).events ++
          [Event.FinishDiggingEvent ⟨packet.location, 0, 0⟩] } := by
  unfold handle_finished_digging
  rw [hd, hi]
  simp

/-- A finish packet with no record from a player who cannot insta-break is
dropped. -/
theorem handle_finished_digging_norecord (g : GameState) (p : PlayerState)
    (packet : PlayerDigging) (hd : p.digging = none) (hi : p.canInstaBreak = false) :
    handle_finished_digging g p packet = ⟨p, g, [], false⟩ := by
  unfold handle_finished_digging
  rw [hd, hi]
  simp

/-- Fixture: the break-capable player `p0`, mid-dig at `pos1` (record `d1`). -/
def p1 : PlayerState := { p0 with digging := some d1 }

/-- C1 counterexample: the player `p1` holds the record `d1` targeting `pos1`,
yet a finish-dig packet at the different coordinate `pos2` leaves the player
with **no** `Digging` record — the claim says the record is left untouched,
but the code removes the component before checking the coordinates. -/
theorem C1_counterexample :
    p1.canBreak = true ∧ p1.digging = some d1 ∧ d1.pos ≠ pos2 ∧
    (handle_digging g0 p1 ⟨PlayerDiggingStatus.FinishedDigging, pos2⟩).player.digging = none :=
  ⟨rfl, rfl, by decide, rfl⟩

/-- **C1 (amended).** For every actor with break capability that holds a
`Digging` record, a finish-dig message whose target differs from the record's
target neither breaks the targeted block nor emits a `FinishDigging`
notification — but the `Digging` record **is** removed (the code removes the
component before the coordinate comparison). -/
theorem C1_mismatched_finish (g : GameState) (p : PlayerState) (packet : PlayerDigging)
    (d : Digging) (hcb : p.canBreak = true)
    (hst : packet.status = PlayerDiggingStatus.FinishedDigging)
    (hd : p.digging = some d) (hne : d.pos ≠ packet.location) :
    (handle_digging g p packet).player.digging = none ∧
    (handle_digging g p packet).events = [] ∧
    (handle_digging g p packet).game = g ∧
    (handle_digging g p packet).disconnected = false := by
  rw [handle_digging_finish g p packet hcb hst,
    handle_finished_digging_mismatch g p packet d hd hne]
  exact ⟨rfl, rfl, rfl, rfl⟩

/-- Witness for C1: the amended theorem applied to the concrete mid-dig
player `p1` and a finish packet at the mismatched coordinate `pos2`. -/
theorem C1_mismatched_finish_witness :
    p1.canBreak = true ∧ p1.digging = some d1 ∧ d1.pos ≠ pos2 ∧
    ((handle_digging g0 p1 ⟨PlayerDiggingStatus.FinishedDigging, pos2⟩).player.digging = none ∧
     (handle_digging g0 p1 ⟨PlayerDiggingStatus.FinishedDigging, pos2⟩).events = [] ∧
     (handle_digging g0 p1 ⟨PlayerDiggingStatus.FinishedDigging, pos2⟩).game = g0 ∧
     (handle_digging g0 p1 ⟨PlayerDiggingStatus.FinishedDigging, pos2⟩).disconnected = false) :=
  ⟨rfl, rfl, by decide,
    C1_mismatched_finish g0 p1 ⟨PlayerDiggingStatus.FinishedDigging, pos2⟩ d1
      rfl rfl rfl (by decide)⟩

/-- C3 counterexample: the dig attempt of `p1` reached the `Digging` state
(record `d1`), and a finish-dig packet at the mismatched coordinate `pos2`
ends the attempt (the record is removed) with **zero** `FinishDigging`
notifications, not exactly one. -/
theorem C3_counterexample :
    p1.digging = some d1 ∧
    (handle_digging g0 p1 ⟨PlayerDiggingStatus.FinishedDigging, pos2⟩).player.digging = none ∧
    (handle_digging g0 p1 ⟨PlayerDiggingStatus.FinishedDigging, pos2⟩).events = [] :=
  ⟨rfl, rfl, rfl⟩

/-- **C3 (amended).** For every dig attempt that reached the `Digging`
state, exactly one `FinishDigging` notification is emitted when the attempt
ends by cancel or by a finish whose target matches the record, and it carries
the record exactly as it existed just before removal; a finish with a
mismatched target ends the attempt (removes the record) with no
notification. -/
theorem C3_finish_event_exactly_once (g : GameState) (p : PlayerState) (d : Digging)
    (loc : BlockPos) (hcb : p.canBreak = true) (hd : p.digging = some d) :
    ((handle_digging g p ⟨PlayerDiggingStatus.CancelledDigging, loc⟩).events =
      [Event.FinishDiggingEvent d]) ∧
    (d.pos = loc →
      (handle_digging g p ⟨PlayerDiggingStatus.FinishedDigging, loc⟩).events =
        [Event.FinishDiggingEvent d]) ∧
    (d.pos ≠ loc →
      ((handle_digging g p ⟨PlayerDiggingStatus.FinishedDigging, loc⟩).events = [] ∧
       (handle_digging g p ⟨PlayerDiggingStatus.FinishedDigging, loc⟩).player.digging = none)) := by
  refine ⟨?_, ?_, ?_⟩
  · rw [handle_digging_cancel g p _ hcb rfl]
    unfold handle_cancelled_digging
    rw [hd]
  · intro hpos
    rw [handle_digging_finish g p _ hcb rfl,
      handle_finished_digging_match g p _ d hd hpos]
    simp [dig_events]
  · intro hpos
    rw [handle_digging_finish g p _ hcb rfl,
      handle_finished_digging_mismatch g p _ d hd hpos]
    exact ⟨rfl, rfl⟩

/-- Witness for C3: the amended theorem applied to the concrete mid-dig
player `p1`, with the packet location equal to the record's target `pos1`. -/
theorem C3_finish_event_exactly_once_witness :
    p1.canBreak = true ∧ p1.digging = some d1 ∧
    (((handle_digging g0 p1 ⟨PlayerDiggingStatus.CancelledDigging, pos1⟩).events =
       [Event.FinishDiggingEvent d1]) ∧
     (d1.pos = pos1 →
       (handle_digging g0 p1 ⟨PlayerDiggingStatus.FinishedDigging, pos1⟩).events =
         [Event.FinishDiggingEvent d1]) ∧
     (d1.pos ≠ pos1 →
       ((handle_digging g0 p1 ⟨PlayerDiggingStatus.FinishedDigging, pos1⟩).events = [] ∧
        (handle_digging g0 p1 ⟨PlayerDiggingStatus.FinishedDigging, pos1⟩).player.digging =
          none))) :=
  ⟨rfl, rfl, C3_finish_event_exactly_once g0 p1 d1 pos1 rfl rfl⟩

/-- Fixture: an insta-breaking, break-capable player standing at x = 100,
far from `pos1` (distance² = 9801 + 4 + 9 > 36). -/
def pFar : PlayerState := { p0 with canInstaBreak := true, position := ⟨100, 0, 0⟩ }

/-- C4 counterexample: `pFar` has break and insta-break capability, yet its
start-dig packet at `pos1` does **not** break the block (the target is
farther than the maximum dig radius, a precondition the claim omits). -/
theorem C4_counterexample :
    pFar.canBreak = true ∧ pFar.canInstaBreak = true ∧
    (handle_digging g0 pFar ⟨PlayerDiggingStatus.StartedDigging, pos1⟩).game.blocks pos1 =
      some stoneK ∧
    stoneK ≠ BlockKind.air := by
  refine ⟨rfl, rfl, ?_, by simp [stoneK, BlockKind.air]⟩
  rw [handle_digging_start g0 pFar _ rfl rfl, handle_started_digging_far g0 pFar _ (by
    norm_num [pos1, pFar, p0, BlockPos.position, Pos.distance_squared_to,
      MAX_DIG_RADIUS_SQUARED])]
  rfl

/-- **C4 (amended).** For every start-dig message from an actor with break
capability whose target is within the maximum dig radius (distance² ≤ 36),
where the block's hardness is below 0.01 or the actor has insta-break
capability, no `Digging` record is created and no `StartDigging` notification
is emitted, and — provided the target chunk is loaded — the block is broken
immediately. -/
theorem C4_insta_start (g : GameState) (p : PlayerState) (packet : PlayerDigging)
    (hcb : p.canBreak = true) (hst : packet.status = PlayerDiggingStatus.StartedDigging)
    (hdist : packet.location.position.distance_squared_to p.position ≤ MAX_DIG_RADIUS_SQUARED)
    (hi : p.canInstaBreak = true ∨
      ((g.block_at packet.location).getD BlockKind.air).hardness < 1/100) :
    (handle_digging g p packet).player.digging = none ∧
    (handle_digging g p packet).events = [] ∧
    ((g.blocks packet.location).isSome = true →
      (handle_digging g p packet).game.blocks packet.location = some BlockKind.air ∧
      (handle_digging g p packet).disconnected = false) := by
  rw [handle_digging_start g p packet hcb hst,
    handle_started_digging_insta g p packet (not_lt.mpr hdist) hi]
  refine ⟨?_, dig_events _ _ _, fun h => dig_breaks _ _ _ h⟩
  rw [dig_player]

/-- Witness for C4: the amended theorem applied to an insta-breaking player
at the origin starting to dig the nearby `pos1` in the loaded world `g0`. -/
theorem C4_insta_start_witness :
    ({ p0 with canInstaBreak := true } : PlayerState).canBreak = true ∧
    ({ p0 with canInstaBreak := true } : PlayerState).canInstaBreak = true ∧
    pos1.position.distance_squared_to p0.position ≤ MAX_DIG_RADIUS_SQUARED ∧
    ((handle_digging g0 { p0 with canInstaBreak := true }
        ⟨PlayerDiggingStatus.StartedDigging, pos1⟩).player.digging = none ∧
     (handle_digging g0 { p0 with canInstaBreak := true }
        ⟨PlayerDiggingStatus.StartedDigging, pos1⟩).events = [] ∧
     ((g0.blocks pos1).isSome = true →
       (handle_digging g0 { p0 with canInstaBreak := true }
          ⟨PlayerDiggingStatus.StartedDigging, pos1⟩).game.blocks pos1 = some BlockKind.air ∧
       (handle_digging g0 { p0 with canInstaBreak := true }
          ⟨PlayerDiggingStatus.StartedDigging, pos1⟩).disconnected = false)) :=
  ⟨rfl, rfl,
    by norm_num [pos1, p0, BlockPos.position, Pos.distance_squared_to, MAX_DIG_RADIUS_SQUARED],
    C4_insta_start g0 { p0 with canInstaBreak := true }
      ⟨PlayerDiggingStatus.StartedDigging, pos1⟩ rfl rfl
      (by norm_num [pos1, p0, BlockPos.position, Pos.distance_squared_to,
        MAX_DIG_RADIUS_SQUARED])
      (Or.inl rfl)⟩

/-- **C6.** Every start-dig message from a break-capable actor first
unconditionally discards any pre-existing `Digging` record: any record
present afterwards is the freshly created one, no `FinishDigging`
notification is ever emitted for the discarded record, and even when the
message is rejected by the distance check the old record is gone. -/
theorem C6_start_clears_record (g : GameState) (p : PlayerState) (packet : PlayerDigging)
    (hcb : p.canBreak = true) (hst : packet.status = PlayerDiggingStatus.StartedDigging) :
    (∀ d, (handle_digging g p packet).player.digging = some d →
      d = Digging.mk packet.location
        ((g.block_at packet.location).getD BlockKind.air).hardness 0) ∧
    (∀ d, Event.FinishDiggingEvent d ∉ (handle_digging g p packet).events) ∧
    (packet.location.position.distance_squared_to p.position > MAX_DIG_RADIUS_SQUARED →
      (handle_digging g p packet).player.digging = none ∧
      (handle_digging g p packet).events = []) := by
  rw [handle_digging_start g p packet hcb hst]
  by_cases hfar : packet.location.position.distance_squared_to p.position >
    MAX_DIG_RADIUS_SQUARED
  · rw [handle_started_digging_far g p packet hfar]
    simp
  · by_cases hi : p.canInstaBreak = true ∨
      ((g.block_at packet.location).getD BlockKind.air).hardness < 1/100
    · rw [handle_started_digging_insta g p packet hfar hi]
      refine ⟨?_, ?_, fun h => absurd h hfar⟩
      · intro d hd
        rw [dig_player] at hd
        simp at hd
      · intro d
        rw [dig_events]
        simp
    · rw [handle_started_digging_normal g p packet hfar hi]
      refine ⟨?_, ?_, fun h => absurd h hfar⟩
      · intro d hd
        simpa using hd.symm
      · intro d
        simp

/-- Witness for C6: the theorem applied to the mid-dig player `p1` and a
start packet at the out-of-range coordinate `pos2`; the extra conjunct uses
the distance branch to show the old record was still discarded. -/
theorem C6_start_clears_record_witness :
    p1.canBreak = true ∧ p1.digging = some d1 ∧
    (handle_digging g0 p1 ⟨PlayerDiggingStatus.StartedDigging, pos2⟩).player.digging = none ∧
    (handle_digging g0 p1 ⟨PlayerDiggingStatus.StartedDigging, pos2⟩).events = [] :=
  ⟨rfl, rfl,
    (C6_start_clears_record g0 p1 ⟨PlayerDiggingStatus.StartedDigging, pos2⟩ rfl rfl).2.2
      (by norm_num [pos2, p1, p0, BlockPos.position, Pos.distance_squared_to,
        MAX_DIG_RADIUS_SQUARED])⟩

/-- Fixture: an insta-breaking, break-capable player at the origin. -/
def pInsta0 : PlayerState := { p0 with canInstaBreak := true }

/-- Fixture: an insta-breaking, break-capable player mid-dig at `pos1`. -/
def pInsta1 : PlayerState := { pInsta0 with digging := some d1 }

/-- Fixture: a block coordinate far from the origin. -/
def posVeryFar : BlockPos := ⟨100, 100, 100⟩

/-- C9 counterexample: `pInsta1` has insta-break capability but holds a
record targeting `pos1`, and its finish-dig packet at `pos2` breaks
**nothing** — insta-break alone does not suffice when a mismatched record is
present, contrary to the claim's disjunction. -/
theorem C9_counterexample :
    pInsta1.canBreak = true ∧ pInsta1.canInstaBreak = true ∧
    (handle_digging g0 pInsta1 ⟨PlayerDiggingStatus.FinishedDigging, pos2⟩).game.blocks pos2 =
      some stoneK ∧
    stoneK ≠ BlockKind.air := by
  refine ⟨rfl, rfl, rfl, by simp [stoneK, BlockKind.air]⟩

/-- **C9 (amended).** The finish-dig path performs no distance check: for
every finish-dig message from a break-capable actor targeting a loaded block,
if the actor holds no `Digging` record and has insta-break capability, or the
message's target matches the actor's current record, the targeted block is
broken regardless of the distance between the actor's position and the
target. -/
theorem C9_no_distance_check (g : GameState) (p : PlayerState) (packet : PlayerDigging)
    (hcb : p.canBreak = true) (hst : packet.status = PlayerDiggingStatus.FinishedDigging)
    (hloaded : (g.blocks packet.location).isSome = true)
    (hcase : (p.digging = none ∧ p.canInstaBreak = true) ∨
      (∃ d, p.digging = some d ∧ d.pos = packet.location)) :
    (handle_digging g p packet).game.blocks packet.location = some BlockKind.air := by
  rw [handle_digging_finish g p packet hcb hst]
  rcases hcase with ⟨hnone, hinsta⟩ | ⟨d, hd, hpos⟩
  · rw [handle_finished_digging_insta g p packet hnone hinsta]
    simpa using (dig_breaks g { p with digging := none } packet.location hloaded).1
  · rw [handle_finished_digging_match g p packet d hd hpos, hpos]
    simpa using (dig_breaks g { p with digging := none } packet.location hloaded).1

/-- Witness for C9: the amended theorem applied to the insta-breaking player
`pInsta0` (no record) finishing at `posVeryFar`, a coordinate whose distance
to the origin vastly exceeds the start-dig radius, yet the block breaks. -/
theorem C9_no_distance_check_witness :
    pInsta0.canBreak = true ∧ pInsta0.canInstaBreak = true ∧ pInsta0.digging = none ∧
    posVeryFar.position.distance_squared_to pInsta0.position > MAX_DIG_RADIUS_SQUARED ∧
    (handle_digging g0 pInsta0
      ⟨PlayerDiggingStatus.FinishedDigging, posVeryFar⟩).game.blocks posVeryFar =
      some BlockKind.air :=
  ⟨rfl, rfl, rfl,
    by norm_num [posVeryFar, pInsta0, p0, BlockPos.position, Pos.distance_squared_to,
      MAX_DIG_RADIUS_SQUARED],
    C9_no_distance_check g0 pInsta0 ⟨PlayerDiggingStatus.FinishedDigging, posVeryFar⟩
      rfl rfl rfl (Or.inl ⟨rfl, rfl⟩)⟩

/-- **C10.** A finish-dig message from a break-capable, insta-breaking actor
holding no `Digging` record emits a `FinishDigging` notification carrying a
synthetic record whose target is the message's location and whose
`required_time` and `progress` are both 0, even though the actor never
entered the `Digging` state. -/
theorem C10_insta_finish_synthetic (g : GameState) (p : PlayerState) (packet : PlayerDigging)
    (hcb : p.canBreak = true) (hst : packet.status = PlayerDiggingStatus.FinishedDigging)
    (hnod : p.digging = none) (hi : p.canInstaBreak = true) :
    (handle_digging g p packet).events =
      [Event.FinishDiggingEvent ⟨packet.location, 0, 0⟩] := by
  rw [handle_digging_finish g p packet hcb hst,
    handle_finished_digging_insta g p packet hnod hi]
  simp [dig_events]

/-- Witness for C10: the theorem applied to `pInsta0` finishing at `pos1`. -/
theorem C10_insta_finish_synthetic_witness :
    pInsta0.canBreak = true ∧ pInsta0.canInstaBreak = true ∧ pInsta0.digging = none ∧
    (handle_digging g0 pInsta0 ⟨PlayerDiggingStatus.FinishedDigging, pos1⟩).events =
      [Event.FinishDiggingEvent ⟨pos1, 0, 0⟩] :=
  ⟨rfl, rfl, rfl,
    C10_insta_finish_synthetic g0 pInsta0 ⟨PlayerDiggingStatus.FinishedDigging, pos1⟩
      rfl rfl rfl rfl⟩

/-- **C5.** Per-tick progress advancement, for an arbitrary tick rate `tps`:
when the held tool's category equals the block's (defined) best-tool
category and the material multiplier is `M = mat.dig_multiplier`, the
increment is exactly `(1/tps) × (1/1.5) × M`; when the guard fails and
best-tool-required holds, it is exactly `(1/tps) × (1/5)`; otherwise it is
exactly `(1/tps) × (1/1.5)`. In every case the record is kept with its
target and `required_time` unchanged, and the increment is the same for
every prior `progress` and `required_time` value — the engine never compares
`progress` against `required_time` and never removes the record. -/
theorem C5_progress_increment (tps : ℚ) (g : GameState) (inv : Inventory) (held : Nat)
    (pos : BlockPos) :
    (∀ item k mat, inv.item_at Area.Hotbar held = some item →
      item.ty.tool = some k →
      ((g.block_at pos).getD BlockKind.air).best_tool = some k →
      item.ty.tool_material = some mat →
      ∀ t prog, advance_dig_progress tps g inv held ⟨pos, t, prog⟩ =
        some ⟨pos, t, prog + (1 / tps) * ((1 / (3/2 : ℚ)) * mat.dig_multiplier)⟩) ∧
    (¬ (((g.block_at pos).getD BlockKind.air).best_tool =
          ((inv.item_at Area.Hotbar held).map (fun item => item.ty.tool)).join ∧
        ((g.block_at pos).getD BlockKind.air).best_tool.isSome = true) →
      ((g.block_at pos).getD BlockKind.air).best_tool_required = true →
      ∀ t prog, advance_dig_progress tps g inv held ⟨pos, t, prog⟩ =
        some ⟨pos, t, prog + (1 / tps) * (1/5 : ℚ)⟩) ∧
    (¬ (((g.block_at pos).getD BlockKind.air).best_tool =
          ((inv.item_at Area.Hotbar held).map (fun item => item.ty.tool)).join ∧
        ((g.block_at pos).getD BlockKind.air).best_tool.isSome = true) →
      ((g.block_at pos).getD BlockKind.air).best_tool_required = false →
      ∀ t prog, advance_dig_progress tps g inv held ⟨pos, t, prog⟩ =
        some ⟨pos, t, prog + (1 / tps) * (1 / (3/2 : ℚ))⟩) := by
  refine ⟨?_, ?_, ?_⟩
  · intro item k mat hitem htool hbt hmat t prog
    simp [advance_dig_progress, hitem, htool, hbt, hmat]
  · intro hng hreq t prog
    rw [advance_dig_progress]
    simp only [hreq]
    rw [if_neg hng]
    simp
  · intro hng hreq t prog
    rw [advance_dig_progress]
    simp only [hreq]
    rw [if_neg hng]
    simp

/-- Fixture: a pickaxe of a material with dig multiplier 6. -/
def pickStack : ItemStack := ⟨Item.ToolItem ToolKind.Pickaxe (some ⟨6⟩), 1⟩

/-- Fixture: an inventory holding only `pickStack`, in hotbar slot 0. -/
def toolInv : Inventory := ⟨fun j => if j = 0 then some pickStack else none, none, fun _ => none⟩

/-- Witness for C5: the matching-tool case on the stone-like world `g0`
(best tool pickaxe) with `pickStack` held, tick rate 20: the increment is
`(1/20) × (1/1.5) × 6`. -/
theorem C5_progress_increment_witness :
    toolInv.item_at Area.Hotbar 0 = some pickStack ∧
    pickStack.ty.tool = some ToolKind.Pickaxe ∧
    ((g0.block_at pos1).getD BlockKind.air).best_tool = some ToolKind.Pickaxe ∧
    pickStack.ty.tool_material = some ⟨6⟩ ∧
    advance_dig_progress 20 g0 toolInv 0 ⟨pos1, 3/2, 0⟩ =
      some ⟨pos1, 3/2, 0 + (1 / 20) * ((1 / (3/2 : ℚ)) * (ToolMaterial.mk 6).dig_multiplier)⟩ :=
  ⟨rfl, rfl, rfl, rfl,
    (C5_progress_increment 20 g0 toolInv 0 pos1).1 pickStack ToolKind.Pickaxe ⟨6⟩
      rfl rfl rfl rfl (3/2) 0⟩

/-- **C7.** Drop-one-item semantics on the held hotbar slot: an empty slot
is a silent no-op; amount 0 removes the slot and emits an `InventoryUpdate`
only; amount 1 removes the slot and emits both an `InventoryUpdate` and an
`ItemDrop` of amount 1; amount `n > 1` decrements the stack to `n - 1` and
emits both, with dropped amount 1. -/
theorem C7_drop_one_item (g : GameState) (p : PlayerState) (loc : BlockPos) :
    (p.inventory.item_at Area.Hotbar p.heldItem = none →
      (handle_drop_item_stack g p ⟨PlayerDiggingStatus.DropItem, loc⟩).player = p ∧
      (handle_drop_item_stack g p ⟨PlayerDiggingStatus.DropItem, loc⟩).game = g ∧
      (handle_drop_item_stack g p ⟨PlayerDiggingStatus.DropItem, loc⟩).events = [] ∧
      (handle_drop_item_stack g p ⟨PlayerDiggingStatus.DropItem, loc⟩).disconnected = false) ∧
    (∀ ty, p.inventory.item_at Area.Hotbar p.heldItem = some ⟨ty, 0⟩ →
      (handle_drop_item_stack g p
        ⟨PlayerDiggingStatus.DropItem, loc⟩).player.inventory.item_at Area.Hotbar
        p.heldItem = none ∧
      (handle_drop_item_stack g p ⟨PlayerDiggingStatus.DropItem, loc⟩).events =
        [Event.InventoryUpdateEvent [⟨Area.Hotbar, p.heldItem⟩]]) ∧
    (∀ ty, p.inventory.item_at Area.Hotbar p.heldItem = some ⟨ty, 1⟩ →
      (handle_drop_item_stack g p
        ⟨PlayerDiggingStatus.DropItem, loc⟩).player.inventory.item_at Area.Hotbar
        p.heldItem = none ∧
      (handle_drop_item_stack g p ⟨PlayerDiggingStatus.DropItem, loc⟩).events =
        [Event.InventoryUpdateEvent [⟨Area.Hotbar, p.heldItem⟩],
         Event.ItemDropEvent (some ⟨Area.Hotbar, p.heldItem⟩) ⟨ty, 1⟩]) ∧
    (∀ ty n, 1 < n → p.inventory.item_at Area.Hotbar p.heldItem = some ⟨ty, n⟩ →
      (handle_drop_item_stack g p
        ⟨PlayerDiggingStatus.DropItem, loc⟩).player.inventory.item_at Area.Hotbar
        p.heldItem = some ⟨ty, n - 1⟩ ∧
      (handle_drop_item_stack g p ⟨PlayerDiggingStatus.DropItem, loc⟩).events =
        [Event.InventoryUpdateEvent [⟨Area.Hotbar, p.heldItem⟩],
         Event.ItemDropEvent (some ⟨Area.Hotbar, p.heldItem⟩) ⟨ty, 1⟩]) := by
  refine ⟨?_, ?_, ?_, ?_⟩
  · intro hslot
    unfold handle_drop_item_stack
    simp [hslot]
  · intro ty hslot
    have hslot' : p.inventory.hotbar p.heldItem = some ⟨ty, 0⟩ := hslot
    unfold handle_drop_item_stack
    simp [hslot', Inventory.item_at, Inventory.remove_item_at]
  · intro ty hslot
    have hslot' : p.inventory.hotbar p.heldItem = some ⟨ty, 1⟩ := hslot
    unfold handle_drop_item_stack
    simp [hslot', Inventory.item_at, Inventory.remove_item_at]
  · intro ty n hn hslot
    have hslot' : p.inventory.hotbar p.heldItem = some ⟨ty, n⟩ := hslot
    have hn0 : n ≠ 0 := by omega
    have hn1 : n ≠ 1 := by omega
    unfold handle_drop_item_stack
    simp [hslot', hn0, hn1, Inventory.item_at, Inventory.set_item_at]

/-- Fixture: a break-capable player holding a single `Item.Other 7` in the
held hotbar slot 0. -/
def pDrop : PlayerState :=
  { p0 with inventory := ⟨fun j => if j = 0 then some ⟨Item.Other 7, 1⟩ else none,
      none, fun _ => none⟩ }

/-- Witness for C7: the amount-1 case applied to `pDrop` — the slot is
removed and both notifications are emitted, with dropped amount 1. -/
theorem C7_drop_one_item_witness :
    pDrop.inventory.item_at Area.Hotbar pDrop.heldItem = some ⟨Item.Other 7, 1⟩ ∧
    ((handle_drop_item_stack g0 pDrop
        ⟨PlayerDiggingStatus.DropItem, pos1⟩).player.inventory.item_at Area.Hotbar
        pDrop.heldItem = none ∧
     (handle_drop_item_stack g0 pDrop ⟨PlayerDiggingStatus.DropItem, pos1⟩).events =
       [Event.InventoryUpdateEvent [⟨Area.Hotbar, pDrop.heldItem⟩],
        Event.ItemDropEvent (some ⟨Area.Hotbar, pDrop.heldItem⟩) ⟨Item.Other 7, 1⟩]) :=
  ⟨rfl, (C7_drop_one_item g0 pDrop pos1).2.2.1 (Item.Other 7) rfl⟩

/-- **C8.** A bow release (`ConsumeItem` with a bow in the held slot) from an
actor with no `ItemTimedUse` (charge-use) record is a complete no-op: the
player and world states are returned unchanged (no record created or
removed), no event is published, and no disconnect happens — hence no
projectile is spawned. -/
theorem C8_bow_release_no_charge (g : GameState) (p : PlayerState) (loc : BlockPos)
    (item : ItemStack) (hheld : p.inventory.item_at Area.Hotbar p.heldItem = some item)
    (hbow : item.ty = Item.Bow) (hnouse : p.timedUse = none) :
    handle_player_digging g p ⟨PlayerDiggingStatus.ConsumeItem, loc⟩ =
      Outcome.mk p g [] false := by
  show handle_consume_item g p ⟨PlayerDiggingStatus.ConsumeItem, loc⟩ = Outcome.mk p g [] false
  unfold handle_consume_item
  rw [hheld]
  dsimp only
  rw [if_pos hbow]
  unfold handle_shoot_bow
  rw [hnouse]

/-- Fixture: a break-capable player holding a bow, with no charge record. -/
def pBow : PlayerState :=
  { p0 with inventory := ⟨fun j => if j = 0 then some ⟨Item.Bow, 1⟩ else none,
      none, fun _ => none⟩ }

/-- Witness for C8: the theorem applied to `pBow`. -/
theorem C8_bow_release_no_charge_witness :
    pBow.inventory.item_at Area.Hotbar pBow.heldItem = some ⟨Item.Bow, 1⟩ ∧
    pBow.timedUse = none ∧
    handle_player_digging g0 pBow ⟨PlayerDiggingStatus.ConsumeItem, pos1⟩ =
      Outcome.mk pBow g0 [] false :=
  ⟨rfl, rfl,
    C8_bow_release_no_charge g0 pBow pos1 ⟨Item.Bow, 1⟩ rfl rfl rfl⟩

/-- Fixture: an arrow stack sitting in the real off-hand slot. -/
def arrowOff : ItemStack := ⟨Item.Arrow, 5⟩

/-- Fixture: a tipped-arrow stack in hotbar slot 3. -/
def arrowHot3 : ItemStack := ⟨Item.TippedArrow, 2⟩

/-- Fixture: inventory with `arrowOff` in the off-hand area, `arrowHot3` in
hotbar slot 3, and every other slot (hotbar slot 0 included) empty. -/
def invC2 : Inventory :=
  ⟨fun j => if j = 3 then some arrowHot3 else none, some arrowOff, fun _ => none⟩

/-- **C2.** With arrows present in both the off-hand slot and hotbar slot 3,
`find_arrow` selects the hotbar-3 arrow, not the off-hand one: the first
check of the search reads `Area::Hotbar` slot 0 (mislabelling its result as
the off-hand slot) and the `Area::Offhand` slot is never read, contradicting
the in-code comment "Order of priority is: off-hand, hotbar (0 to 8), rest
of inventory". -/
theorem C2_offhand_never_searched :
    invC2.item_at Area.Offhand 0 = some arrowOff ∧
    is_arrow_item arrowOff.ty = true ∧
    invC2.item_at Area.Hotbar 3 = some arrowHot3 ∧
    find_arrow invC2 = some (slot Area.Hotbar 3, arrowHot3) :=
  ⟨rfl, rfl, by decide, by decide⟩

end Digg
